import Mathlib

/-!
Shallow embedding of `src/server.js` (a minimal Express chat server):
the data model (User, Conversation with ordered messages), the store
operations (find / save on in-memory lists standing for the Mongo
collections), the `POST /chat` handler, the `POST /register` handler and
the `POST /login` handler. Timestamps are abstracted as a `now : Nat`
parameter supplied per request; the external generation API is abstracted
as an oracle from the request payload (model name and translated turn
list) to an outcome (a successful JSON body, or a thrown error optionally
carrying structured response data — axios throws on network failures,
timeouts and non-2xx statuses alike).
-/

/-- Message role, the `enum: ["user", "model"]` of the conversation schema. -/
inductive Role where
  | user
  | model
  deriving DecidableEq, Repr

/-- The string stored for a role by the schema (`enum: ["user", "model"]`). -/
def roleLabel : Role → String
  | .user => "user"
  | .model => "model"

/-- One entry of `conversationSchema.messages`. -/
structure Message where
  role : Role
  text : String
  createdAt : Nat
  deriving DecidableEq, Repr

/-- A `Conversation` document: keyed by the owning user's id. -/
structure Conversation where
  userId : Nat
  messages : List Message
  updatedAt : Nat
  deriving DecidableEq, Repr

/-- A `User` document (`userSchema`). -/
structure User where
  id : Nat
  username : String
  password : String
  joinDate : Nat
  lastLogin : Nat
  achievements : List String
  deriving DecidableEq, Repr

/-- The persistence layer: the two Mongo collections, plus a counter for
fresh ObjectIds. -/
structure Store where
  users : List User
  convos : List Conversation
  nextId : Nat
  deriving DecidableEq, Repr

/-- `convo.save()` for a conversation document: update the (first) stored
document with the same key in place, or insert it if absent. -/
def saveConvo : List Conversation → Conversation → List Conversation
  | [], c => [c]
  | d :: rest, c => if d.userId = c.userId then c :: rest else d :: saveConvo rest c

/-- `user.save()` for an already-persisted user document: update the first
stored document with the same id in place, or insert it if absent. -/
def saveUser : List User → User → List User
  | [], u => [u]
  | v :: rest, u => if v.id = u.id then u :: rest else v :: saveUser rest u

/-- `Conversation.findOne({ user: uid })`. -/
def convoFor (st : Store) (uid : Nat) : Option Conversation :=
  st.convos.find? (fun c => c.userId == uid)

/-- The message list of a user's conversation, `[]` when no conversation
document exists yet. -/
def messagesFor (st : Store) (uid : Nat) : List Message :=
  ((convoFor st uid).map Conversation.messages).getD []

/-- `User.findOne({ username })`. -/
def findUser (st : Store) (uname : String) : Option User :=
  st.users.find? (fun u => u.username == uname)

/-- The JSON body of `POST /chat`: `{ username, message, model? }`; absent
or JS-falsy string fields are modelled as `none` / `some ""`. -/
structure ChatRequest where
  username : Option String
  message : Option String
  model : Option String
  deriving DecidableEq, Repr

/-- What the handler sends back: `res.json({ reply })` (status 200), or
`res.status(s).json({ error })`. -/
inductive ChatResponse where
  | reply (text : String)
  | errorResp (status : Nat) (msg : String)
  deriving DecidableEq, Repr

/-- `true` on the `{ error }` responses. -/
def ChatResponse.isError : ChatResponse → Bool
  | .reply _ => false
  | .errorResp _ _ => true

/-- `process.env` as far as the chat handler reads it: `GOOGLE_API_KEY`. -/
structure Env where
  apiKey : Option String

/-- One `parts` element of a Gemini response candidate: `p?.text`. -/
structure GenPart where
  text : Option String
  deriving DecidableEq, Repr

/-- `candidate.content`: optional `parts` array. -/
structure GenContent where
  parts : Option (List GenPart)
  deriving DecidableEq, Repr

/-- One element of `data.candidates`. -/
structure Candidate where
  content : Option GenContent
  deriving DecidableEq, Repr

/-- `data.error` of the Gemini response body. -/
structure ApiErrorInfo where
  message : String
  deriving DecidableEq, Repr

/-- The JSON body `data` of a Gemini response. -/
structure GenData where
  candidates : Option (List Candidate)
  error : Option ApiErrorInfo
  deriving DecidableEq, Repr

/-- Outcome of `axios.post(endpoint, payload, ...)`: a 2xx response with
body `data`, or a thrown error (network failure, timeout, or non-2xx
status) whose `err?.response?.data` may carry structured data. -/
inductive AxiosOutcome where
  | success (data : GenData)
  | failure (responseData : Option GenData)
  deriving DecidableEq, Repr

/-- One upstream turn of the `contents` payload. -/
structure Turn where
  role : String
  parts : List GenPart
  deriving DecidableEq, Repr

/-- Line 64–69: `convo.messages.map(msg => ({ role: msg.role === "user" ?
"user" : "assistant", parts: [{ text: msg.text }] }))`. -/
def toContents (msgs : List Message) : List Turn :=
  msgs.map fun m =>
    { role := if m.role = Role.user then "user" else "assistant"
      parts := [{ text := some m.text }] }

/-- Line 44: `(req.body.model || "gemini-1.5-flash-latest").toString()` —
a missing or JS-falsy `model` field falls back to the literal default. -/
def resolveModel : Option String → String
  | none => "gemini-1.5-flash-latest"
  | some s => if s = "" then "gemini-1.5-flash-latest" else s

/-- Line 74: the local fallback reply, a pure function of the message
text (the source file's bytes render the dash as `â€”`). -/
def fallbackReply (text : String) : String :=
  "Local-mode reply: I heard \"" ++ text ++ "\" â€” set GOOGLE_API_KEY to enable real AI."

/-- Line 96: `data?.candidates?.[0]?.content?.parts?.map(p => p?.text)
.filter(Boolean)` — `none` when any link of the optional chain is absent. -/
def replyPartsOf (data : GenData) : Option (List String) :=
  match data.candidates with
  | none => none
  | some cands =>
    match cands.head? with
    | none => none
    | some c =>
      match c.content with
      | none => none
      | some ct =>
        match ct.parts with
        | none => none
        | some ps => some (((ps.map GenPart.text).filterMap id).filter (fun s => s != ""))

/-- Line 97: `replyParts && replyParts.length ? replyParts.join("\n") :
null`. -/
def parseReply (data : GenData) : Option String :=
  match replyPartsOf data with
  | none => none
  | some l => if l.isEmpty then none else some (String.intercalate "\n" l)

/-- JS `s || dflt` on an optional string: the default replaces an absent
value and the falsy empty string alike. -/
def jsOr (s : Option String) (dflt : String) : String :=
  match s with
  | none => dflt
  | some v => if v = "" then dflt else v

/-- Lines 112–116: the catch handler — status 500 with
`err?.response?.data?.error?.message || "Server error"` (JS `||`: an
empty structured message also falls back to the default). -/
def catchHandler (responseData : Option GenData) : ChatResponse :=
  .errorResp 500 (jsOr ((responseData.bind GenData.error).map ApiErrorInfo.message) "Server error")

/-- Append one message and refresh `updatedAt` (lines 59–60 / 75–76 /
106–107). -/
def appendMsg (c : Conversation) (r : Role) (t : String) (now : Nat) : Conversation :=
  { c with messages := c.messages ++ [{ role := r, text := t, createdAt := now }]
           updatedAt := now }

/-- Lines 53–56: find the user's conversation or build a fresh empty one. -/
def getOrCreateConvo (st : Store) (uid now : Nat) : Conversation :=
  match convoFor st uid with
  | some c => c
  | none => { userId := uid, messages := [], updatedAt := now }

/-- `convo.save()`: commit a conversation document to the store. -/
def persistConvo (st : Store) (c : Conversation) : Store :=
  { st with convos := saveConvo st.convos c }

/-- Lines 88–111 given the axios outcome: the catch handler for thrown
errors, the defensive parsing with its 502 branch, and on success the
model-turn append and save. -/
def apiStep (outcome : AxiosOutcome) (now : Nat) (convo1 : Conversation) (st1 : Store) :
    ChatResponse × Store :=
  match outcome with
  | .failure d => (catchHandler d, st1)
  | .success data =>
    match parseReply data with
    | none =>
      (.errorResp 502 (jsOr ((data.error).map ApiErrorInfo.message) "No reply from Gemini"), st1)
    | some reply => (.reply reply, persistConvo st1 (appendMsg convo1 .model reply now))

/-- Lines 63–111: everything after the user turn is persisted — build
`contents`, then either the local fallback branch (lines 72–79, taken
when `!process.env.GOOGLE_API_KEY`: the key is unset or the falsy empty
string), or the axios call followed by `apiStep`. -/
def generateStep (env : Env) (oracle : String → List Turn → AxiosOutcome) (now : Nat)
    (text model : String) (convo1 : Conversation) (st1 : Store) : ChatResponse × Store :=
  if env.apiKey.getD "" = "" then
    (.reply (fallbackReply text),
      persistConvo st1 (appendMsg convo1 .model (fallbackReply text) now))
  else apiStep (oracle model (toContents convo1.messages)) now convo1 st1

/-- Lines 40–117: the `POST /chat` handler. Coerce the body fields as the
source does (`(req.body.x || "").toString()`), validate, look up the
user, get-or-create the conversation, append and persist the user turn,
then run the generation step. -/
def handleChatTurn (env : Env) (oracle : String → List Turn → AxiosOutcome) (now : Nat)
    (req : ChatRequest) (st : Store) : ChatResponse × Store :=
  let username := req.username.getD ""
  let text := req.message.getD ""
  let model := resolveModel req.model
  if username = "" ∨ text = "" then
    (.errorResp 400 "username and message required", st)
  else
    match findUser st username with
    | none => (.errorResp 404 "user not found", st)
    | some user =>
      let convo1 := appendMsg (getOrCreateConvo st user.id now) .user text now
      let st1 := persistConvo st convo1
      generateStep env oracle now text model convo1 st1

/-- Outcome of `POST /register`: the success page or the
"User already exists" page. -/
inductive RegisterResult where
  | created
  | alreadyExists
  deriving DecidableEq, Repr

/-- Lines 175–194: the `POST /register` handler — pre-check
`User.findOne({ username })`, reject when present, otherwise insert a new
user with the schema defaults. -/
def handleRegister (now : Nat) (uname pw : String) (st : Store) : RegisterResult × Store :=
  match findUser st uname with
  | some _ => (.alreadyExists, st)
  | none =>
    let newUser : User :=
      { id := st.nextId, username := uname, password := pw
        joinDate := now, lastLogin := now, achievements := ["First Login"] }
    (.created, { st with users := st.users ++ [newUser], nextId := st.nextId + 1 })

/-- Lines 148–167: the `POST /login` handler — on a username/password
match refresh `lastLogin` and save; conversations are untouched. -/
def handleLogin (now : Nat) (uname pw : String) (st : Store) : Store :=
  match st.users.find? (fun u => u.username == uname && u.password == pw) with
  | none => st
  | some u => { st with users := saveUser st.users { u with lastLogin := now } }

/-- The operations of the subsystem, for stating store-level invariants. -/
inductive Op where
  | chat (env : Env) (oracle : String → List Turn → AxiosOutcome) (req : ChatRequest)
  | registerOp (uname pw : String)
  | loginOp (uname pw : String)

/-- The store after one operation. -/
def stepStore (now : Nat) (op : Op) (st : Store) : Store :=
  match op with
  | .chat env oracle req => (handleChatTurn env oracle now req st).2
  | .registerOp uname pw => (handleRegister now uname pw st).2
  | .loginOp uname pw => handleLogin now uname pw st

/-- Generation produced no usable reply: the axios call threw, or its
response body parsed to no reply text. -/
def failsToReply : AxiosOutcome → Bool
  | .failure _ => true
  | .success data => (parseReply data).isNone

def alice0 : User :=
  { id := 0, username := "alice", password := "pw", joinDate := 0, lastLogin := 0,
    achievements := ["First Login"] }

def st0 : Store := { users := [alice0], convos := [], nextId := 1 }

def req0 : ChatRequest := { username := some "alice", message := some "hello", model := none }

def msgs0 : List Message :=
  [{ role := Role.user, text := "a", createdAt := 0 },
   { role := Role.model, text := "b", createdAt := 1 }]

/-- An oracle standing for a network or timeout failure: axios throws
with no `response` attached (`err?.response?.data` is absent). -/
def oracleNetFail : String → List Turn → AxiosOutcome := fun _ _ => .failure none

/-- Following the spec's words for comparison with `parseReply`: the
non-empty text fields of the first candidate's content parts, in order;
`[]` when any link of the path is absent. -/
def specNonEmptyTexts (data : GenData) : List String :=
  match data.candidates with
  | some (c :: _) =>
    match c.content with
    | some ct =>
      match ct.parts with
      | some ps => ((ps.map GenPart.text).filterMap id).filter (fun s => s != "")
      | none => []
    | none => []
  | _ => []

def dataParts0 : GenData :=
  GenData.mk
    (some [Candidate.mk (some (GenContent.mk (some
      [GenPart.mk (some "hi"), GenPart.mk (some ""), GenPart.mk none,
       GenPart.mk (some "there")])))])
    none

def dataNoCandidates : GenData := GenData.mk (some []) none

/-! ### Store lemmas -/

theorem find?_saveConvo_self (l : List Conversation) (c : Conversation) :
    (saveConvo l c).find? (fun d => d.userId == c.userId) = some c := by
  induction l with
  | nil => simp [saveConvo]
  | cons d rest ih =>
    by_cases h : d.userId = c.userId
    · simp [saveConvo, h]
    · rw [saveConvo, if_neg h,
        List.find?_cons_of_neg (p := fun d : Conversation => d.userId == c.userId) _ (by simpa using h)]
      exact ih

theorem find?_saveConvo_ne (l : List Conversation) (c : Conversation) (uid : Nat)
    (h : uid ≠ c.userId) :
    (saveConvo l c).find? (fun d => d.userId == uid) = l.find? (fun d => d.userId == uid) := by
  have hc : ¬ (c.userId == uid) = true := by
    simpa using fun e => h e.symm
  induction l with
  | nil =>
    rw [saveConvo, List.find?_cons_of_neg (p := fun d : Conversation => d.userId == uid) _ hc,
      List.find?_nil]
  | cons d rest ih =>
    by_cases hd : d.userId = c.userId
    · rw [saveConvo, if_pos hd, List.find?_cons_of_neg (p := fun d : Conversation => d.userId == uid) _ hc,
        List.find?_cons_of_neg (p := fun d : Conversation => d.userId == uid) _ (by simpa [hd] using hc)]
    · rw [saveConvo, if_neg hd]
      cases hdu : (d.userId == uid) with
      | true =>
        rw [List.find?_cons_of_pos (p := fun d : Conversation => d.userId == uid) _ hdu,
          List.find?_cons_of_pos (p := fun d : Conversation => d.userId == uid) _ hdu]
      | false =>
        rw [List.find?_cons_of_neg (p := fun d : Conversation => d.userId == uid) _ (by simp [hdu]),
          List.find?_cons_of_neg (p := fun d : Conversation => d.userId == uid) _ (by simp [hdu])]
        exact ih

theorem convoFor_persistConvo_self (st : Store) (c : Conversation) :
    convoFor (persistConvo st c) c.userId = some c :=
  find?_saveConvo_self st.convos c

theorem convoFor_persistConvo_ne (st : Store) (c : Conversation) (uid : Nat)
    (h : uid ≠ c.userId) :
    convoFor (persistConvo st c) uid = convoFor st uid :=
  find?_saveConvo_ne st.convos c uid h

theorem messagesFor_persistConvo_self (st : Store) (c : Conversation) :
    messagesFor (persistConvo st c) c.userId = c.messages := by
  simp [messagesFor, convoFor_persistConvo_self]

theorem messagesFor_persistConvo_ne (st : Store) (c : Conversation) (uid : Nat)
    (h : uid ≠ c.userId) :
    messagesFor (persistConvo st c) uid = messagesFor st uid := by
  simp [messagesFor, convoFor_persistConvo_ne st c uid h]

theorem getOrCreateConvo_userId (st : Store) (uid now : Nat) :
    (getOrCreateConvo st uid now).userId = uid := by
  unfold getOrCreateConvo
  cases hc : convoFor st uid with
  | none => rfl
  | some c =>
    have := List.find?_some hc
    simpa using this

theorem getOrCreateConvo_messages (st : Store) (uid now : Nat) :
    (getOrCreateConvo st uid now).messages = messagesFor st uid := by
  unfold getOrCreateConvo messagesFor
  cases hc : convoFor st uid with
  | none => rfl
  | some c => rfl

theorem appendMsg_userId (c : Conversation) (r : Role) (t : String) (now : Nat) :
    (appendMsg c r t now).userId = c.userId := rfl

theorem appendMsg_messages (c : Conversation) (r : Role) (t : String) (now : Nat) :
    (appendMsg c r t now).messages
      = c.messages ++ [{ role := r, text := t, createdAt := now }] := rfl

theorem handleChatTurn_valid (env : Env) (oracle : String → List Turn → AxiosOutcome)
    (now : Nat) (req : ChatRequest) (st : Store) (u t : String) (user : User)
    (hu : req.username = some u) (hune : u ≠ "")
    (ht : req.message = some t) (htne : t ≠ "")
    (hfind : findUser st u = some user) :
    handleChatTurn env oracle now req st =
      generateStep env oracle now t (resolveModel req.model)
        (appendMsg (getOrCreateConvo st user.id now) .user t now)
        (persistConvo st (appendMsg (getOrCreateConvo st user.id now) .user t now)) := by
  unfold handleChatTurn
  rw [hu, ht]
  simp only [Option.getD_some]
  rw [if_neg (by simp [hune, htne]), hfind]

theorem appendMsg_updatedAt (c : Conversation) (r : Role) (t : String) (now : Nat) :
    (appendMsg c r t now).updatedAt = now := rfl

theorem messagesFor_persistConvo_eq (st : Store) (c : Conversation) (uid : Nat)
    (h : c.userId = uid) : messagesFor (persistConvo st c) uid = c.messages := by
  subst h
  exact messagesFor_persistConvo_self st c

theorem convoFor_persistConvo_eq (st : Store) (c : Conversation) (uid : Nat)
    (h : c.userId = uid) : convoFor (persistConvo st c) uid = some c := by
  subst h
  exact convoFor_persistConvo_self st c

theorem messagesFor_after_user_append (st : Store) (uid now : Nat) (t : String) :
    messagesFor (persistConvo st (appendMsg (getOrCreateConvo st uid now) Role.user t now)) uid
      = messagesFor st uid ++ [{ role := Role.user, text := t, createdAt := now }] := by
  rw [messagesFor_persistConvo_eq st _ uid
      (by rw [appendMsg_userId, getOrCreateConvo_userId]),
    appendMsg_messages, getOrCreateConvo_messages]

theorem messagesFor_after_both_appends (st : Store) (uid now : Nat) (t r : String) :
    messagesFor
        (persistConvo (persistConvo st (appendMsg (getOrCreateConvo st uid now) Role.user t now))
          (appendMsg (appendMsg (getOrCreateConvo st uid now) Role.user t now) Role.model r now))
        uid
      = messagesFor st uid ++
          [{ role := Role.user, text := t, createdAt := now },
           { role := Role.model, text := r, createdAt := now }] := by
  rw [messagesFor_persistConvo_eq _ _ uid
      (by rw [appendMsg_userId, appendMsg_userId, getOrCreateConvo_userId]),
    appendMsg_messages, appendMsg_messages, getOrCreateConvo_messages, List.append_assoc]
  rfl

theorem generateStep_unset (env : Env) (oracle : String → List Turn → AxiosOutcome)
    (now : Nat) (text model : String) (convo1 : Conversation) (st1 : Store)
    (hkey : env.apiKey.getD "" = "") :
    generateStep env oracle now text model convo1 st1 =
      (.reply (fallbackReply text),
        persistConvo st1 (appendMsg convo1 .model (fallbackReply text) now)) := by
  unfold generateStep
  rw [if_pos hkey]

theorem generateStep_set (env : Env) (oracle : String → List Turn → AxiosOutcome)
    (now : Nat) (text model : String) (convo1 : Conversation) (st1 : Store)
    (hkey : env.apiKey.getD "" ≠ "") :
    generateStep env oracle now text model convo1 st1 =
      apiStep (oracle model (toContents convo1.messages)) now convo1 st1 := by
  unfold generateStep
  rw [if_neg hkey]

/-! ### Claim theorems -/

/-- C1: with no `GOOGLE_API_KEY` configured, a chat request with a
non-empty username naming an existing user and a non-empty message gets a
200 reply equal to `fallbackReply message` (a pure function of the
message text), and the user's conversation grows by exactly the user turn
followed by the model turn. -/
theorem chat_fallback_reply_and_two_appends (oracle : String → List Turn → AxiosOutcome)
    (now : Nat) (req : ChatRequest) (st : Store) (u t : String) (user : User)
    (hu : req.username = some u) (hune : u ≠ "")
    (ht : req.message = some t) (htne : t ≠ "")
    (hfind : findUser st u = some user) :
    (handleChatTurn ⟨none⟩ oracle now req st).1 = .reply (fallbackReply t) ∧
    messagesFor (handleChatTurn ⟨none⟩ oracle now req st).2 user.id =
      messagesFor st user.id ++
        [{ role := Role.user, text := t, createdAt := now },
         { role := Role.model, text := fallbackReply t, createdAt := now }] := by
  rw [handleChatTurn_valid ⟨none⟩ oracle now req st u t user hu hune ht htne hfind,
    generateStep_unset ⟨none⟩ oracle now t (resolveModel req.model) _ _ rfl]
  exact ⟨rfl, messagesFor_after_both_appends st user.id now t (fallbackReply t)⟩

theorem chat_fallback_reply_and_two_appends_witness :
    (handleChatTurn ⟨none⟩ (fun _ _ => .failure none) 5 req0 st0).1
        = .reply (fallbackReply "hello") ∧
    messagesFor (handleChatTurn ⟨none⟩ (fun _ _ => .failure none) 5 req0 st0).2 alice0.id =
      messagesFor st0 alice0.id ++
        [{ role := Role.user, text := "hello", createdAt := 5 },
         { role := Role.model, text := fallbackReply "hello", createdAt := 5 }] :=
  chat_fallback_reply_and_two_appends (fun _ _ => .failure none) 5 req0 st0 "alice" "hello"
    alice0 rfl (by decide) rfl (by decide) (by decide)

/-- C2: once a chat turn passes validation and user lookup, the user turn
is appended and persisted before generation; when a truthy API key is
configured (the API path, not the fallback) and generation then fails
(thrown axios error, or a response that parses to no reply) the final
store holds the user turn and no model turn — the conversation grew by
exactly one message — and the response is an error response. -/
theorem chat_failed_generation_persists_user_turn (env : Env)
    (oracle : String → List Turn → AxiosOutcome) (now : Nat) (req : ChatRequest) (st : Store)
    (u t : String) (user : User)
    (hu : req.username = some u) (hune : u ≠ "")
    (ht : req.message = some t) (htne : t ≠ "")
    (hfind : findUser st u = some user) (hkey : env.apiKey.getD "" ≠ "")
    (hfail : ∀ m c, failsToReply (oracle m c) = true) :
    (handleChatTurn env oracle now req st).1.isError = true ∧
    messagesFor (handleChatTurn env oracle now req st).2 user.id =
      messagesFor st user.id ++ [{ role := Role.user, text := t, createdAt := now }] := by
  rw [handleChatTurn_valid env oracle now req st u t user hu hune ht htne hfind,
    generateStep_set env oracle now t (resolveModel req.model) _ _ hkey]
  have h1 := messagesFor_after_user_append st user.id now t
  cases ho : oracle (resolveModel req.model)
      (toContents (appendMsg (getOrCreateConvo st user.id now) Role.user t now).messages) with
  | failure d => exact ⟨rfl, h1⟩
  | success data =>
    have hp : parseReply data = none := by
      have := hfail (resolveModel req.model)
        (toContents (appendMsg (getOrCreateConvo st user.id now) Role.user t now).messages)
      rw [ho] at this
      simpa [failsToReply, Option.isNone_iff_eq_none] using this
    simp only [apiStep, hp]
    exact ⟨rfl, h1⟩

theorem chat_failed_generation_persists_user_turn_witness :
    (handleChatTurn ⟨some "k"⟩ (fun _ _ => .failure none) 5 req0 st0).1.isError = true ∧
    messagesFor (handleChatTurn ⟨some "k"⟩ (fun _ _ => .failure none) 5 req0 st0).2 alice0.id =
      messagesFor st0 alice0.id ++ [{ role := Role.user, text := "hello", createdAt := 5 }] :=
  chat_failed_generation_persists_user_turn ⟨some "k"⟩ (fun _ _ => .failure none) 5 req0 st0
    "alice" "hello" alice0 rfl (by decide) rfl (by decide) (by decide) (by decide)
    (fun _ _ => rfl)

/-- C7: a chat request with non-empty fields naming an unknown username
is answered with 404 "user not found" and leaves the store unchanged — no
user and no conversation is created. -/
theorem chat_unknown_user_404 (env : Env) (oracle : String → List Turn → AxiosOutcome)
    (now : Nat) (req : ChatRequest) (st : Store) (u t : String)
    (hu : req.username = some u) (hune : u ≠ "")
    (ht : req.message = some t) (htne : t ≠ "")
    (hfind : findUser st u = none) :
    handleChatTurn env oracle now req st = (.errorResp 404 "user not found", st) := by
  unfold handleChatTurn
  rw [hu, ht]
  simp only [Option.getD_some]
  rw [if_neg (by simp [hune, htne]), hfind]

theorem chat_unknown_user_404_witness :
    handleChatTurn ⟨none⟩ (fun _ _ => .failure none) 5
        { username := some "bob", message := some "hi", model := none } st0 =
      (.errorResp 404 "user not found", st0) :=
  chat_unknown_user_404 ⟨none⟩ (fun _ _ => .failure none) 5
    { username := some "bob", message := some "hi", model := none } st0 "bob" "hi"
    rfl (by decide) rfl (by decide) (by decide)

theorem apiStep_not_400 (outcome : AxiosOutcome) (now : Nat) (convo1 : Conversation)
    (st1 : Store) :
    (apiStep outcome now convo1 st1).1 ≠ .errorResp 400 "username and message required" := by
  cases outcome with
  | failure d => simp [apiStep, catchHandler]
  | success data =>
    cases hp : parseReply data with
    | none => simp [apiStep, hp]
    | some r => simp [apiStep, hp]

theorem generateStep_not_400 (env : Env) (oracle : String → List Turn → AxiosOutcome)
    (now : Nat) (text model : String) (convo1 : Conversation) (st1 : Store) :
    (generateStep env oracle now text model convo1 st1).1
      ≠ .errorResp 400 "username and message required" := by
  by_cases hk : env.apiKey.getD "" = ""
  · rw [generateStep_unset env oracle now text model convo1 st1 hk]
    simp
  · rw [generateStep_set env oracle now text model convo1 st1 hk]
    exact apiStep_not_400 _ now convo1 st1

/-- C3 counterexample: the source never trims — a whitespace-only message
(here a single space, non-empty but consisting only of whitespace, so it
is empty after trimming) is accepted and answered with a fallback reply
rather than rejected with 400. -/
theorem whitespace_message_not_rejected :
    (" " : String) ≠ "" ∧ (" " : String).toList.all Char.isWhitespace = true ∧
    (handleChatTurn ⟨none⟩ (fun _ _ => .failure none) 5
        { username := some "alice", message := some " ", model := none } st0).1
      = .reply (fallbackReply " ") := by
  refine ⟨by decide, by decide, rfl⟩

/-- C3 amended: the handler answers 400 "username and message required"
exactly when the coerced `username` or `message` body field is the empty
string — no trimming is applied, so whitespace-only values pass — and on
that 400 path the store is returned unchanged. -/
theorem chat_invalid_request_iff (env : Env) (oracle : String → List Turn → AxiosOutcome)
    (now : Nat) (req : ChatRequest) (st : Store) :
    ((handleChatTurn env oracle now req st).1
        = .errorResp 400 "username and message required"
      ↔ (req.username.getD "" = "" ∨ req.message.getD "" = "")) ∧
    ((req.username.getD "" = "" ∨ req.message.getD "" = "") →
      (handleChatTurn env oracle now req st).2 = st) := by
  by_cases hcond : req.username.getD "" = "" ∨ req.message.getD "" = ""
  · unfold handleChatTurn
    rw [if_pos hcond]
    exact ⟨⟨fun _ => hcond, fun _ => rfl⟩, fun _ => rfl⟩
  · constructor
    · constructor
      · intro h400
        exfalso
        unfold handleChatTurn at h400
        rw [if_neg hcond] at h400
        cases hf : findUser st (req.username.getD "") with
        | none =>
          rw [hf] at h400
          simp at h400
        | some user =>
          rw [hf] at h400
          exact generateStep_not_400 env oracle now _ _ _ _ h400
      · intro h
        exact absurd h hcond
    · intro h
      exact absurd h hcond

theorem chat_invalid_request_iff_witness :
    ((handleChatTurn ⟨none⟩ (fun _ _ => .failure none) 5
          { username := some "alice", message := some "", model := none } st0).1
        = .errorResp 400 "username and message required") ∧
    (handleChatTurn ⟨none⟩ (fun _ _ => .failure none) 5
          { username := some "alice", message := some "", model := none } st0).2 = st0 := by
  have h := chat_invalid_request_iff ⟨none⟩ (fun _ _ => .failure none) 5
    { username := some "alice", message := some "", model := none } st0
  exact ⟨h.1.mpr (Or.inr rfl), h.2 (Or.inr rfl)⟩

/-- C4 counterexample: the translation to the upstream turn list does not
keep the stored role label — a conversation message with role `model`
(stored label "model") is sent upstream with role "assistant". -/
theorem contents_model_role_renamed :
    (toContents [{ role := Role.model, text := "hi", createdAt := 0 }]).map Turn.role
      = ["assistant"] ∧
    roleLabel Role.model = "model" ∧
    ("assistant" : String) ≠ "model" :=
  ⟨rfl, rfl, by decide⟩

/-- C4 amended: the translation preserves length, order and text exactly
— the i-th upstream turn carries the i-th conversation message's text as
its single part — and maps roles by sending `user` to "user" but `model`
to "assistant" (not to its stored label "model"). -/
theorem contents_order_text_preserved (msgs : List Message) (i : Nat)
    (hi : i < msgs.length) :
    (toContents msgs).length = msgs.length ∧
    ∀ hj : i < (toContents msgs).length,
      ((toContents msgs).get ⟨i, hj⟩).parts = [{ text := some (msgs.get ⟨i, hi⟩).text }] ∧
      ((toContents msgs).get ⟨i, hj⟩).role
        = (if (msgs.get ⟨i, hi⟩).role = Role.user then "user" else "assistant") := by
  constructor
  · simp [toContents]
  · intro hj
    constructor <;> simp [toContents]

theorem contents_order_text_preserved_witness :
    (toContents msgs0).length = msgs0.length ∧
    ∀ hj : 1 < (toContents msgs0).length,
      ((toContents msgs0).get ⟨1, hj⟩).parts = [{ text := some (msgs0.get ⟨1, by decide⟩).text }] ∧
      ((toContents msgs0).get ⟨1, hj⟩).role
        = (if (msgs0.get ⟨1, by decide⟩).role = Role.user then "user" else "assistant") :=
  contents_order_text_preserved msgs0 1 (by decide)

/-- C5 counterexample: a network/timeout failure of the generation call
is answered with HTTP 500 and the generic detail "Server error" — exactly
the catch handler's output for any unexpected error with no structured
response data — so it is not reported as a distinct error kind:
it is indistinguishable from a generic server error. -/
theorem network_failure_is_generic_500 :
    (handleChatTurn ⟨some "k"⟩ oracleNetFail 5 req0 st0).1
        = .errorResp 500 "Server error" ∧
    catchHandler none = .errorResp 500 "Server error" :=
  ⟨rfl, rfl⟩

/-- C5 amended: with a truthy API key configured, every thrown
generation error — network and timeout failures included — lands in the
catch handler and is reported as HTTP 500 with
`err?.response?.data?.error?.message || "Server error"` (JS `||`: an
absent or empty structured message yields the default); a bare
network/timeout failure (no response data) thus gets the same generic
500 "Server error" as any unexpected server error, with no distinct
UpstreamUnavailable kind. -/
theorem chat_thrown_error_hits_catch_handler (env : Env)
    (oracle : String → List Turn → AxiosOutcome) (now : Nat) (req : ChatRequest) (st : Store)
    (u t : String) (user : User) (d : Option GenData)
    (hu : req.username = some u) (hune : u ≠ "")
    (ht : req.message = some t) (htne : t ≠ "")
    (hfind : findUser st u = some user) (hkey : env.apiKey.getD "" ≠ "")
    (ho : ∀ m c, oracle m c = .failure d) :
    (handleChatTurn env oracle now req st).1 = catchHandler d ∧
    catchHandler d
      = .errorResp 500 (jsOr ((d.bind GenData.error).map ApiErrorInfo.message) "Server error") := by
  refine ⟨?_, rfl⟩
  rw [handleChatTurn_valid env oracle now req st u t user hu hune ht htne hfind,
    generateStep_set env oracle now t (resolveModel req.model) _ _ hkey, ho]
  rfl

theorem chat_thrown_error_hits_catch_handler_witness :
    (handleChatTurn ⟨some "k"⟩ oracleNetFail 5 req0 st0).1 = catchHandler none ∧
    catchHandler none
      = .errorResp 500
          (jsOr (((none : Option GenData).bind GenData.error).map ApiErrorInfo.message)
            "Server error") :=
  chat_thrown_error_hits_catch_handler ⟨some "k"⟩ oracleNetFail 5 req0 st0
    "alice" "hello" alice0 none rfl (by decide) rfl (by decide) (by decide) (by decide)
    (fun _ _ => rfl)

theorem isEmpty_ite_eq (l : List String) :
    (if l.isEmpty then (none : Option String) else some (String.intercalate "\n" l))
      = if l = [] then none else some (String.intercalate "\n" l) := by
  by_cases h : l = [] <;> simp [h]

theorem parseReply_eq_spec (data : GenData) :
    parseReply data =
      if specNonEmptyTexts data = [] then none
      else some (String.intercalate "\n" (specNonEmptyTexts data)) := by
  obtain ⟨cands, err⟩ := data
  cases cands with
  | none => rfl
  | some cl =>
    cases cl with
    | nil => rfl
    | cons c cs =>
      obtain ⟨oct⟩ := c
      cases oct with
      | none => rfl
      | some ct =>
        obtain ⟨ops⟩ := ct
        cases ops with
        | none => rfl
        | some ps => exact isEmpty_ite_eq _

/-- C6: the parsed reply is the newline-join, in order, of the non-empty
text fields of the first candidate's content parts; when no such
non-empty text exists (the path is absent or every text is missing or
empty) parsing yields `none` — never an empty-string success — and a
chat turn that took the API path (truthy key configured) is answered
with 502 and `data?.error?.message || "No reply from Gemini"`. -/
theorem reply_parsing_concatenates_or_fails (data : GenData) :
    (specNonEmptyTexts data ≠ [] →
      parseReply data = some (String.intercalate "\n" (specNonEmptyTexts data))) ∧
    (specNonEmptyTexts data = [] → parseReply data = none) ∧
    (∀ (env : Env) (oracle : String → List Turn → AxiosOutcome) (now : Nat)
        (req : ChatRequest) (st : Store) (u t : String) (user : User),
      req.username = some u → u ≠ "" → req.message = some t → t ≠ "" →
      findUser st u = some user → env.apiKey.getD "" ≠ "" →
      (∀ m c, oracle m c = .success data) →
      parseReply data = none →
      (handleChatTurn env oracle now req st).1
        = .errorResp 502 (jsOr (data.error.map ApiErrorInfo.message) "No reply from Gemini")) := by
  refine ⟨?_, ?_, ?_⟩
  · intro h
    rw [parseReply_eq_spec, if_neg h]
  · intro h
    rw [parseReply_eq_spec, if_pos h]
  · intro env oracle now req st u t user hu hune ht htne hfind hkey ho hp
    rw [handleChatTurn_valid env oracle now req st u t user hu hune ht htne hfind,
      generateStep_set env oracle now t (resolveModel req.model) _ _ hkey, ho]
    simp only [apiStep, hp]

theorem reply_parsing_concatenates_or_fails_witness :
    parseReply dataParts0 = some (String.intercalate "\n" (specNonEmptyTexts dataParts0)) ∧
    parseReply dataNoCandidates = none ∧
    (handleChatTurn ⟨some "k"⟩ (fun _ _ => .success dataNoCandidates) 5 req0 st0).1
      = .errorResp 502 (jsOr (dataNoCandidates.error.map ApiErrorInfo.message)
          "No reply from Gemini") := by
  refine ⟨(reply_parsing_concatenates_or_fails dataParts0).1 (by decide),
    (reply_parsing_concatenates_or_fails dataNoCandidates).2.1 rfl,
    (reply_parsing_concatenates_or_fails dataNoCandidates).2.2 ⟨some "k"⟩
      (fun _ _ => .success dataNoCandidates) 5 req0 st0 "alice" "hello" alice0
      rfl (by decide) rfl (by decide) (by decide) (by decide) (fun _ _ => rfl) rfl⟩

theorem handleRegister_found (now : Nat) (u pw : String) (st : Store) (user : User)
    (h : findUser st u = some user) : handleRegister now u pw st = (.alreadyExists, st) := by
  unfold handleRegister
  rw [h]

theorem handleRegister_notFound (now : Nat) (u pw : String) (st : Store)
    (h : findUser st u = none) :
    handleRegister now u pw st =
      (.created,
        { st with
            users := st.users ++
              [{ id := st.nextId, username := u, password := pw, joinDate := now,
                 lastLogin := now, achievements := ["First Login"] }]
            nextId := st.nextId + 1 }) := by
  unfold handleRegister
  rw [h]

/-- C8: starting from a store with no record for the username, two
sequential registrations of that username create the user on the first
attempt, reject the second attempt, and leave exactly one record for
that username in the User Store. -/
theorem register_twice_second_rejected (now1 now2 : Nat) (u p1 p2 : String) (st : Store)
    (h0 : st.users.filter (fun v => v.username == u) = []) :
    (handleRegister now2 u p2 (handleRegister now1 u p1 st).2).1 = .alreadyExists ∧
    ((handleRegister now2 u p2 (handleRegister now1 u p1 st).2).2).users.filter
        (fun v => v.username == u)
      = [{ id := st.nextId, username := u, password := p1, joinDate := now1,
           lastLogin := now1, achievements := ["First Login"] }] := by
  have hnone : findUser st u = none := by
    rw [findUser, List.find?_eq_none]
    exact List.filter_eq_nil_iff.mp h0
  have hnone' : st.users.find? (fun v => v.username == u) = none := hnone
  rw [handleRegister_notFound now1 u p1 st hnone]
  have hfind2 : findUser
      { st with
          users := st.users ++
            [{ id := st.nextId, username := u, password := p1, joinDate := now1,
               lastLogin := now1, achievements := ["First Login"] }]
          nextId := st.nextId + 1 } u
      = some { id := st.nextId, username := u, password := p1, joinDate := now1,
               lastLogin := now1, achievements := ["First Login"] } := by
    show (st.users ++ [_]).find? (fun v : User => v.username == u) = _
    rw [List.find?_append, hnone']
    simp
  rw [handleRegister_found now2 u p2 _ _ hfind2]
  refine ⟨rfl, ?_⟩
  show (st.users ++ [_]).filter (fun v : User => v.username == u) = _
  rw [List.filter_append, h0]
  simp

theorem register_twice_second_rejected_witness :
    (handleRegister 2 "alice" "pw2" (handleRegister 1 "alice" "pw1"
        { users := [], convos := [], nextId := 0 }).2).1 = .alreadyExists ∧
    ((handleRegister 2 "alice" "pw2" (handleRegister 1 "alice" "pw1"
          { users := [], convos := [], nextId := 0 }).2).2).users.filter
        (fun v => v.username == "alice")
      = [{ id := 0, username := "alice", password := "pw1", joinDate := 1,
           lastLogin := 1, achievements := ["First Login"] }] :=
  register_twice_second_rejected 1 2 "alice" "pw1" "pw2"
    { users := [], convos := [], nextId := 0 } rfl

/-- C10: a chat request whose `model` field is omitted (or is the falsy
empty string) resolves to the literal default "gemini-1.5-flash-latest",
and that default is hard-coded: for every environment the handler behaves
as if the oracle were invoked at exactly that literal model identifier. -/
theorem default_model_hardcoded (env : Env) (oracle : String → List Turn → AxiosOutcome)
    (now : Nat) (req : ChatRequest) (st : Store)
    (h : req.model = none ∨ req.model = some "") :
    resolveModel req.model = "gemini-1.5-flash-latest" ∧
    handleChatTurn env oracle now req st
      = handleChatTurn env (fun _ c => oracle "gemini-1.5-flash-latest" c) now req st := by
  have hm : resolveModel req.model = "gemini-1.5-flash-latest" := by
    rcases h with h | h <;> rw [h] <;> rfl
  refine ⟨hm, ?_⟩
  simp only [handleChatTurn]
  by_cases hcond : req.username.getD "" = "" ∨ req.message.getD "" = ""
  · rw [if_pos hcond, if_pos hcond]
  · rw [if_neg hcond]
    cases hf : findUser st (req.username.getD "") with
    | none => rw [if_neg hcond]
    | some user =>
      rw [if_neg hcond, hm]
      show generateStep env oracle now (req.message.getD "") "gemini-1.5-flash-latest"
          (appendMsg (getOrCreateConvo st user.id now) Role.user (req.message.getD "") now)
          (persistConvo st
            (appendMsg (getOrCreateConvo st user.id now) Role.user (req.message.getD "") now))
        = generateStep env (fun _ c => oracle "gemini-1.5-flash-latest" c) now
          (req.message.getD "") "gemini-1.5-flash-latest"
          (appendMsg (getOrCreateConvo st user.id now) Role.user (req.message.getD "") now)
          (persistConvo st
            (appendMsg (getOrCreateConvo st user.id now) Role.user (req.message.getD "") now))
      by_cases hk : env.apiKey.getD "" = ""
      · rw [generateStep_unset env oracle now _ _ _ _ hk,
          generateStep_unset env (fun _ c => oracle "gemini-1.5-flash-latest" c) now _ _ _ _ hk]
      · rw [generateStep_set env oracle now _ _ _ _ hk,
          generateStep_set env (fun _ c => oracle "gemini-1.5-flash-latest" c) now _ _ _ _ hk]

theorem default_model_hardcoded_witness :
    resolveModel req0.model = "gemini-1.5-flash-latest" ∧
    handleChatTurn ⟨none⟩ oracleNetFail 5 req0 st0
      = handleChatTurn ⟨none⟩ (fun _ c => oracleNetFail "gemini-1.5-flash-latest" c) 5 req0 st0 :=
  default_model_hardcoded ⟨none⟩ oracleNetFail 5 req0 st0 (Or.inl rfl)

theorem messagesFor_convos_eq (st st' : Store) (h : st'.convos = st.convos) (uid : Nat) :
    messagesFor st' uid = messagesFor st uid := by
  unfold messagesFor convoFor
  rw [h]

theorem generateStep_snd (env : Env) (oracle : String → List Turn → AxiosOutcome) (now : Nat)
    (t model : String) (c : Conversation) (st1 : Store) :
    (generateStep env oracle now t model c st1).2 = st1 ∨
    ∃ r, (generateStep env oracle now t model c st1).2
        = persistConvo st1 (appendMsg c Role.model r now) := by
  by_cases hk : env.apiKey.getD "" = ""
  · exact Or.inr ⟨fallbackReply t, by rw [generateStep_unset env oracle now t model c st1 hk]⟩
  · rw [generateStep_set env oracle now t model c st1 hk]
    cases oracle model (toContents c.messages) with
    | failure d => exact Or.inl rfl
    | success data =>
      cases hp : parseReply data with
      | none => exact Or.inl (by simp [apiStep, hp])
      | some r => exact Or.inr ⟨r, by simp [apiStep, hp]⟩

/-- C9: every operation of the subsystem only ever appends to a
conversation's `messages` — for each user the old message list is a
prefix of the new one — and whenever the list changed (a message was
appended) the conversation's `updatedAt` equals the request's timestamp. -/
theorem conversation_messages_append_only (now : Nat) (op : Op) (st : Store) (uid : Nat) :
    messagesFor st uid <+: messagesFor (stepStore now op st) uid ∧
    (messagesFor (stepStore now op st) uid ≠ messagesFor st uid →
      (convoFor (stepStore now op st) uid).map Conversation.updatedAt = some now) := by
  cases op with
  | registerOp uname pw =>
    have hconvos : (stepStore now (.registerOp uname pw) st).convos = st.convos := by
      simp only [stepStore]
      cases hf : findUser st uname with
      | some u => rw [handleRegister_found now uname pw st u hf]
      | none => rw [handleRegister_notFound now uname pw st hf]
    have hmsg := messagesFor_convos_eq _ _ hconvos uid
    exact ⟨hmsg ▸ List.prefix_rfl, fun hne => absurd hmsg hne⟩
  | loginOp uname pw =>
    have hconvos : (stepStore now (.loginOp uname pw) st).convos = st.convos := by
      simp only [stepStore, handleLogin]
      cases st.users.find? (fun u => u.username == uname && u.password == pw) <;> rfl
    have hmsg := messagesFor_convos_eq _ _ hconvos uid
    exact ⟨hmsg ▸ List.prefix_rfl, fun hne => absurd hmsg hne⟩
  | chat env oracle req =>
    simp only [stepStore]
    by_cases hcond : req.username.getD "" = "" ∨ req.message.getD "" = ""
    · have hst : (handleChatTurn env oracle now req st).2 = st := by
        unfold handleChatTurn
        rw [if_pos hcond]
      rw [hst]
      exact ⟨List.prefix_rfl, fun hne => absurd rfl hne⟩
    · push_neg at hcond
      obtain ⟨hune, htne⟩ := hcond
      cases hf : findUser st (req.username.getD "") with
      | none =>
        have hst : (handleChatTurn env oracle now req st).2 = st := by
          unfold handleChatTurn
          rw [if_neg (by simp [hune, htne]), hf]
        rw [hst]
        exact ⟨List.prefix_rfl, fun hne => absurd rfl hne⟩
      | some user =>
        have hu : req.username = some (req.username.getD "") := by
          cases h : req.username with
          | none => exact absurd (by rw [h]; rfl) hune
          | some v => rfl
        have ht : req.message = some (req.message.getD "") := by
          cases h : req.message with
          | none => exact absurd (by rw [h]; rfl) htne
          | some v => rfl
        rw [handleChatTurn_valid env oracle now req st _ _ user hu hune ht htne hf]
        rcases generateStep_snd env oracle now (req.message.getD "") (resolveModel req.model)
            (appendMsg (getOrCreateConvo st user.id now) Role.user (req.message.getD "") now)
            (persistConvo st
              (appendMsg (getOrCreateConvo st user.id now) Role.user (req.message.getD "") now))
          with hseq | ⟨r, hseq⟩
        · rw [hseq]
          by_cases huid : uid = user.id
          · subst huid
            rw [messagesFor_after_user_append st user.id now (req.message.getD "")]
            refine ⟨List.prefix_append _ _, fun _ => ?_⟩
            rw [convoFor_persistConvo_eq st _ user.id
              (by rw [appendMsg_userId, getOrCreateConvo_userId])]
            rfl
          · have hne : uid ≠ (appendMsg (getOrCreateConvo st user.id now) Role.user
                (req.message.getD "") now).userId := by
              rw [appendMsg_userId, getOrCreateConvo_userId]
              exact huid
            rw [messagesFor_persistConvo_ne st _ uid hne]
            exact ⟨List.prefix_rfl, fun h => absurd rfl h⟩
        · rw [hseq]
          by_cases huid : uid = user.id
          · subst huid
            rw [messagesFor_after_both_appends st user.id now (req.message.getD "") r]
            refine ⟨List.prefix_append _ _, fun _ => ?_⟩
            rw [convoFor_persistConvo_eq _ _ user.id
              (by rw [appendMsg_userId, appendMsg_userId, getOrCreateConvo_userId])]
            rfl
          · have hne : uid ≠ (appendMsg (appendMsg (getOrCreateConvo st user.id now) Role.user
                (req.message.getD "") now) Role.model r now).userId := by
              rw [appendMsg_userId, appendMsg_userId, getOrCreateConvo_userId]
              exact huid
            have hne1 : uid ≠ (appendMsg (getOrCreateConvo st user.id now) Role.user
                (req.message.getD "") now).userId := by
              rw [appendMsg_userId, getOrCreateConvo_userId]
              exact huid
            rw [messagesFor_persistConvo_ne _ _ uid hne, messagesFor_persistConvo_ne st _ uid hne1]
            exact ⟨List.prefix_rfl, fun h => absurd rfl h⟩

theorem conversation_messages_append_only_witness :
    messagesFor st0 0
        <+: messagesFor (stepStore 5 (.chat ⟨none⟩ (fun _ _ => .failure none) req0) st0) 0 ∧
    messagesFor (stepStore 5 (.chat ⟨none⟩ (fun _ _ => .failure none) req0) st0) 0
        ≠ messagesFor st0 0 ∧
    (convoFor (stepStore 5 (.chat ⟨none⟩ (fun _ _ => .failure none) req0) st0) 0).map
        Conversation.updatedAt = some 5 := by
  have h := conversation_messages_append_only 5 (.chat ⟨none⟩ (fun _ _ => .failure none) req0) st0 0
  have hne : messagesFor (stepStore 5 (.chat ⟨none⟩ (fun _ _ => .failure none) req0) st0) 0
      ≠ messagesFor st0 0 := by decide
  exact ⟨h.1, hne, h.2 hne⟩
